import Mathlib

/-!
Verification development for the ai-hallucination-guard repository.

The repository has two source files under version control here:
`main.py` (the FastAPI orchestrator with the `/ask` handler) and
`tools/wikipedia_tool.py` (the Knowledge Source Adapter
`search_wikipedia`).  The agent modules imported by `main.py`
(`agents/scoring_agent.py` with `calculate_risk`, the generation,
extraction, verification, correction, monitoring and analytics agents)
are not present; callers treat them as external collaborators, and
`calculate_risk` is modelled from the specification where a claim needs
it.

Conventions of the shallow embedding:
- Machine-level HTTP behaviour is a parameter `http : HttpRequest →
  HttpResult`; an exception raised by the Python `requests` library or
  by `response.json()` is the constructor `HttpResult.raised` or a
  missing (non-JSON) body, and an exception crossing the function
  boundary is `Except.error`.
- Python dictionaries with ordered keys become association lists;
  `dict.get(k, default)` becomes `Option.getD` over optional fields.
- The floating point weights 1.0 / 0.5 / 0.0 of the risk aggregator are
  exact in these small computations, so they are embedded as rationals.
-/

namespace HallucinationGuard

/-- The query parameters built in `tools/wikipedia_tool.py`, lines
11-19: a fixed MediaWiki extracts query, with `titles` set to the
stripped input title. -/
structure WikiParams where
  action : String
  format : String
  prop : String
  exintro : Bool
  explaintext : Bool
  redirects : Nat
  titles : String
deriving Repr, DecidableEq

/-- One HTTP GET call as issued by `requests.get(url, params=...,
headers=...)` in `tools/wikipedia_tool.py`, line 21.  The `timeout`
field records the timeout argument of the call: the source passes no
timeout keyword, and the `requests` default is no timeout at all, which
the embedding writes as `none`. -/
structure HttpRequest where
  url : String
  params : WikiParams
  userAgent : String
  timeout : Option ℚ
deriving Repr, DecidableEq

/-- One page object inside the `pages` mapping of the MediaWiki
response body; `extract` is the optional plain-text summary read by
`page_data.get("extract", None)` (line 32). -/
structure WikiPage where
  extract : Option String
deriving Repr, DecidableEq

/-- The `query` object of the response body; its `pages` key is
optional, read with an empty-dict default (line 29).  The mapping is
an association list keyed by page id, in response order. -/
structure WikiQueryObj where
  pages : Option (List (String × WikiPage))
deriving Repr, DecidableEq

/-- A parsed JSON response body; its `query` key is optional, read
with an empty-dict default (line 29). -/
structure WikiBody where
  query : Option WikiQueryObj
deriving Repr, DecidableEq

/-- The outcome of one HTTP GET as seen by `search_wikipedia`:
either the `requests` call itself raised (service unreachable), or a
response arrived with a status code and a body.  A body of `none`
models a body that is not JSON, on which `response.json()` (line 27)
raises. -/
inductive HttpResult where
  | raised (msg : String)
  | response (status : Nat) (body : Option WikiBody)
deriving Repr, DecidableEq

/-- The pair of key lookups of `tools/wikipedia_tool.py`, line 29:
the `query` key then the `pages` key, each defaulting to an empty
dict. -/
def wikiPages (data : WikiBody) : List (String × WikiPage) :=
  match data.query with
  | none => []
  | some q => q.pages.getD []

/-- The Python `str.strip()` method used on the title
(`tools/wikipedia_tool.py`, line 18): it removes leading and trailing
whitespace characters. -/
def pyStrip (s : String) : String :=
  ⟨((s.data.dropWhile Char.isWhitespace).reverse.dropWhile
      Char.isWhitespace).reverse⟩

/-- The request constructed by `tools/wikipedia_tool.py`, lines 5-21:
fixed endpoint URL, fixed extract-mode parameters with
`titles := title.strip()`, the identifying User-Agent header, and no
timeout argument on `requests.get`. -/
def wikiRequest (title : String) : HttpRequest :=
  { url := "https://en.wikipedia.org/w/api.php"
    params :=
      { action := "query"
        format := "json"
        prop := "extracts"
        exintro := true
        explaintext := true
        redirects := 1
        titles := pyStrip title }
    userAgent := "AI-Hallucination-Guard/1.0 (your-email@example.com)"
    timeout := none }

/-- `search_wikipedia` of `tools/wikipedia_tool.py`, lines 3-34,
parameterised by the behaviour `http` of the external service.
`Except.error` marks an exception escaping the function: the source has
no try/except, so an exception of `requests.get` (unreachable service)
or of `response.json()` (non-JSON body) propagates to the caller.  A
non-200 status returns `none` after printing a log line (the print has
no effect on the returned value and is not modelled); otherwise the
first entry of the `pages` mapping supplies the result via
`page_data.get("extract", None)`, and an empty mapping yields
`none`. -/
def search_wikipedia (title : String) (http : HttpRequest → HttpResult) :
    Except String (Option String) :=
  match http (wikiRequest title) with
  | .raised msg => .error msg
  | .response status body =>
    if status ≠ 200 then
      .ok none
    else
      match body with
      | none => .error "json.decoder.JSONDecodeError"
      | some data =>
        match wikiPages data with
        | [] => .ok none
        | (_, page_data) :: _ => .ok page_data.extract

/-- Verdict status values of the data model (spec §3). -/
inductive VerdictStatus where
  | Supported
  | Contradicted
  | Unverifiable
deriving Repr, DecidableEq

/-- A Verdict record (spec §3): claim reference, status, confidence,
evidence snippet. -/
structure Verdict where
  claim : String
  status : VerdictStatus
  confidence : ℚ
  evidence : String
deriving Repr, DecidableEq

/-- Risk levels of the data model (spec §3). -/
inductive RiskLevel where
  | Low
  | Medium
  | High
deriving Repr, DecidableEq

/-- A RiskAssessment record (spec §3): discrete level, numeric score,
contributing claim references. -/
structure RiskAssessment where
  risk_level : RiskLevel
  risk_score : ℚ
  contributing_claims : List String
deriving Repr, DecidableEq

/-- Modelled from the spec: the per-verdict weight of §4.3
(`agents/scoring_agent.py` is not under src).  Contradicted contributes
1.0, Unverifiable 0.5, Supported 0.0. -/
def verdictWeight : VerdictStatus → ℚ
  | .Contradicted => 1
  | .Unverifiable => 1 / 2
  | .Supported => 0

/-- Modelled from the spec: the threshold map of §4.3
(`agents/scoring_agent.py` is not under src).  A score of 0.0 or in
(0.0, 0.33] maps to Low, (0.33, 0.66] to Medium, above 0.66 to High. -/
def levelOfScore (s : ℚ) : RiskLevel :=
  if s ≤ 33 / 100 then .Low
  else if s ≤ 66 / 100 then .Medium
  else .High

/-- Modelled from the spec: `calculate_risk` of
`agents/scoring_agent.py`, which is imported by `main.py` but not under
src.  Per §4.3: risk_score is the sum of per-verdict weights divided by
`max 1 (count of verdicts)`, risk_level follows the fixed thresholds,
and the contributing claims are the Contradicted and Unverifiable
verdicts in original order, referenced by claim. -/
def calculate_risk (verdicts : List Verdict) : RiskAssessment :=
  let score : ℚ :=
    (verdicts.map fun v => verdictWeight v.status).sum /
      ((max 1 verdicts.length : ℕ) : ℚ)
  { risk_level := levelOfScore score
    risk_score := score
    contributing_claims :=
      (verdicts.filter fun v => v.status ≠ .Supported).map (·.claim) }

/-- The `response_data` dictionary assembled in `main.py`, lines 37-51.
`corrected_response` is `some` exactly when the handler added the key
in the Medium/High branch. -/
structure ResponseData where
  user_query : String
  draft_response : String
  extracted_claims : List String
  verification_results : List Verdict
  risk_analysis : RiskAssessment
  corrected_response : Option String
deriving Repr, DecidableEq

/-- The external collaborators imported at the top of `main.py` from
the `agents` modules that are not under src.  `log_request` may fail
(the monitoring sink is external); the others are black-box total
functions per spec §6. -/
structure Collaborators where
  generate_response : String → String
  extract_claims : String → List String
  verify_claims : List String → List Verdict
  calc_risk : List Verdict → RiskAssessment
  regenerate_response : String → List Verdict → String
  log_request : ResponseData → Except String Unit

/-- Steps 1-5 of the `/ask` handler (`main.py`, lines 23-51): generate
the draft, extract claims, verify, calculate risk, and conditionally
call `regenerate_response(user_query, verification_results)` when the
risk level is Medium or High.  The second component instruments the
call to `regenerate_response`: `some (q, vs)` records that it was
invoked with exactly arguments `q` and `vs`, `none` that it was not
invoked. -/
def build_response (c : Collaborators) (query : String) :
    ResponseData × Option (String × List Verdict) :=
  let draft_response := c.generate_response query
  let extracted_claims := c.extract_claims draft_response
  let verification_results := c.verify_claims extracted_claims
  let risk_analysis := c.calc_risk verification_results
  let base : ResponseData :=
    { user_query := query
      draft_response := draft_response
      extracted_claims := extracted_claims
      verification_results := verification_results
      risk_analysis := risk_analysis
      corrected_response := none }
  if risk_analysis.risk_level = .Medium ∨ risk_analysis.risk_level = .High then
    ({ base with
        corrected_response :=
          some (c.regenerate_response query verification_results) },
     some (query, verification_results))
  else
    (base, none)

/-- The whole `/ask` handler `ask_question` (`main.py`, lines 20-56):
after assembling `response_data` it calls `log_request(response_data)`
with no exception guard, so a failure of the logging step propagates
(`Except.error`) instead of returning the payload. -/
def ask_question (c : Collaborators) (query : String) :
    Except String (ResponseData × Option (String × List Verdict)) :=
  let r := build_response c query
  match c.log_request r.1 with
  | .error e => .error e
  | .ok _ => .ok r

/-! ### Concrete fixtures used by witnesses and counterexamples -/

/-- A body whose `pages` mapping holds one entry with no `extract`
key: the shape of a successful response for a missing title. -/
def bodyNoExtract : WikiBody :=
  { query := some { pages := some [("-1", { extract := none })] } }

/-- A body whose `pages` mapping holds one entry carrying a summary. -/
def bodyParis : WikiBody :=
  { query := some { pages := some [("22989", { extract := some "Paris is the capital of France." })] } }

/-- A service behaviour returning a fixed status and body to every
request. -/
def httpConst (status : Nat) (body : Option WikiBody) :
    HttpRequest → HttpResult :=
  fun _ => .response status body

/-- A service behaviour on which `requests.get` raises: the host is
unreachable. -/
def httpDown : HttpRequest → HttpResult :=
  fun _ => .raised "requests.exceptions.ConnectionError"

/-- Collaborators whose verifier marks every claim Contradicted and
whose logging sink succeeds. -/
def cDemo : Collaborators :=
  { generate_response := fun q => "draft for " ++ q
    extract_claims := fun d => [d]
    verify_claims := fun cs => cs.map fun t => ⟨t, .Contradicted, 1, ""⟩
    calc_risk := calculate_risk
    regenerate_response := fun q _ => "corrected " ++ q
    log_request := fun _ => .ok () }

/-- Collaborators whose verifier marks every claim Supported. -/
def cAllSupported : Collaborators :=
  { cDemo with verify_claims := fun cs => cs.map fun t => ⟨t, .Supported, 1, t⟩ }

/-- Collaborators whose logging sink always fails. -/
def cLogFail : Collaborators :=
  { cDemo with log_request := fun _ => .error "monitoring sink unavailable" }

/-- The mixed verdict list of spec §8: 2 Supported, 1 Contradicted,
1 Unverifiable. -/
def vsMixed : List Verdict :=
  [⟨"c1", .Supported, 9 / 10, "e1"⟩,
   ⟨"c2", .Supported, 9 / 10, "e2"⟩,
   ⟨"c3", .Contradicted, 8 / 10, "e3"⟩,
   ⟨"c4", .Unverifiable, 0, ""⟩]

/-! ### Helper lemmas -/

theorem verdictWeight_nonneg (s : VerdictStatus) : 0 ≤ verdictWeight s := by
  cases s <;> norm_num [verdictWeight]

theorem verdictWeight_le_one (s : VerdictStatus) : verdictWeight s ≤ 1 := by
  cases s <;> norm_num [verdictWeight]

theorem weights_sum_nonneg (vs : List Verdict) :
    0 ≤ (vs.map fun v => verdictWeight v.status).sum := by
  induction vs with
  | nil => simp
  | cons v t ih =>
    simp only [List.map_cons, List.sum_cons]
    have := verdictWeight_nonneg v.status
    linarith

theorem weights_sum_le_length (vs : List Verdict) :
    (vs.map fun v => verdictWeight v.status).sum ≤ (vs.length : ℚ) := by
  induction vs with
  | nil => simp
  | cons v t ih =>
    simp only [List.map_cons, List.sum_cons, List.length_cons]
    have := verdictWeight_le_one v.status
    push_cast
    linarith

theorem risk_score_nonneg (vs : List Verdict) :
    0 ≤ (calculate_risk vs).risk_score := by
  have hd : (0 : ℚ) ≤ ((max 1 vs.length : ℕ) : ℚ) := by positivity
  exact div_nonneg (weights_sum_nonneg vs) hd

theorem risk_score_le_one (vs : List Verdict) :
    (calculate_risk vs).risk_score ≤ 1 := by
  have hd : (0 : ℚ) < ((max 1 vs.length : ℕ) : ℚ) := by
    have : 1 ≤ max 1 vs.length := Nat.le_max_left 1 vs.length
    exact_mod_cast Nat.lt_of_lt_of_le Nat.zero_lt_one this
  have hle : (vs.map fun v => verdictWeight v.status).sum ≤
      ((max 1 vs.length : ℕ) : ℚ) := by
    refine le_trans (weights_sum_le_length vs) ?_
    exact_mod_cast Nat.le_max_right 1 vs.length
  exact (div_le_one hd).mpr hle

theorem risk_level_eq_levelOfScore (vs : List Verdict) :
    (calculate_risk vs).risk_level = levelOfScore (calculate_risk vs).risk_score :=
  rfl

/-! ### Claims -/

/-- C3: the Risk Aggregator computes risk_score as the mean of
per-verdict weights with denominator `max 1 (count)`, so risk_score is
always in [0,1]; the empty verdict list yields score 0 and level Low;
and risk_level is the deterministic threshold function of risk_score:
at most 0.33 maps to Low, above 0.33 and at most 0.66 to Medium, above
0.66 to High. -/
theorem claim_C3_risk_aggregator (vs : List Verdict) :
    (calculate_risk vs).risk_score =
      (vs.map fun v => verdictWeight v.status).sum / ((max 1 vs.length : ℕ) : ℚ)
    ∧ 0 ≤ (calculate_risk vs).risk_score
    ∧ (calculate_risk vs).risk_score ≤ 1
    ∧ (calculate_risk []).risk_score = 0
    ∧ (calculate_risk []).risk_level = RiskLevel.Low
    ∧ ((calculate_risk vs).risk_score ≤ 33 / 100 →
        (calculate_risk vs).risk_level = RiskLevel.Low)
    ∧ (33 / 100 < (calculate_risk vs).risk_score ∧
        (calculate_risk vs).risk_score ≤ 66 / 100 →
        (calculate_risk vs).risk_level = RiskLevel.Medium)
    ∧ (66 / 100 < (calculate_risk vs).risk_score →
        (calculate_risk vs).risk_level = RiskLevel.High) := by
  refine ⟨rfl, risk_score_nonneg vs, risk_score_le_one vs,
    by simp [calculate_risk],
    by norm_num [calculate_risk, levelOfScore],
    ?_, ?_, ?_⟩
  · intro h
    rw [risk_level_eq_levelOfScore, levelOfScore, if_pos h]
  · rintro ⟨h1, h2⟩
    rw [risk_level_eq_levelOfScore, levelOfScore, if_neg (not_le.mpr h1), if_pos h2]
  · intro h
    have h1 : ¬ (calculate_risk vs).risk_score ≤ 33 / 100 := by
      refine not_le.mpr (lt_trans ?_ h); norm_num
    rw [risk_level_eq_levelOfScore, levelOfScore, if_neg h1, if_neg (not_le.mpr h)]

/-- Witness for C3 at the mixed verdict list of spec §8: score 3/8 and
level Medium fall out of the theorem. -/
theorem claim_C3_risk_aggregator_witness :
    (calculate_risk vsMixed).risk_score = 3 / 8
    ∧ (calculate_risk vsMixed).risk_level = RiskLevel.Medium := by
  have hscore : (calculate_risk vsMixed).risk_score = 3 / 8 := by
    norm_num [calculate_risk, vsMixed, verdictWeight]
  obtain ⟨-, -, -, -, -, -, hmed, -⟩ := claim_C3_risk_aggregator vsMixed
  refine ⟨hscore, hmed ⟨?_, ?_⟩⟩ <;> rw [hscore] <;> norm_num

/-- The verdict list the handler threads from verification into risk
calculation, correction and the payload (`main.py`, lines 26-35). -/
def pipelineVerdicts (c : Collaborators) (query : String) : List Verdict :=
  c.verify_claims (c.extract_claims (c.generate_response query))

theorem build_response_pos (c : Collaborators) (query : String)
    (h : (c.calc_risk (pipelineVerdicts c query)).risk_level = RiskLevel.Medium ∨
      (c.calc_risk (pipelineVerdicts c query)).risk_level = RiskLevel.High) :
    build_response c query =
      ({ user_query := query
         draft_response := c.generate_response query
         extracted_claims := c.extract_claims (c.generate_response query)
         verification_results := pipelineVerdicts c query
         risk_analysis := c.calc_risk (pipelineVerdicts c query)
         corrected_response :=
           some (c.regenerate_response query (pipelineVerdicts c query)) },
       some (query, pipelineVerdicts c query)) := by
  simp only [build_response, pipelineVerdicts] at h ⊢
  rw [if_pos h]

theorem build_response_neg (c : Collaborators) (query : String)
    (h : ¬ ((c.calc_risk (pipelineVerdicts c query)).risk_level = RiskLevel.Medium ∨
      (c.calc_risk (pipelineVerdicts c query)).risk_level = RiskLevel.High)) :
    build_response c query =
      ({ user_query := query
         draft_response := c.generate_response query
         extracted_claims := c.extract_claims (c.generate_response query)
         verification_results := pipelineVerdicts c query
         risk_analysis := c.calc_risk (pipelineVerdicts c query)
         corrected_response := none },
       none) := by
  simp only [build_response, pipelineVerdicts] at h ⊢
  rw [if_neg h]

/-- C2: in the `/ask` handler, a Low risk level never triggers
`regenerate_response`, and a Medium or High risk level always does,
passing exactly the original user query and the unmodified
verification-results list. -/
theorem claim_C2_correction_gate (c : Collaborators) (query : String) :
    ((c.calc_risk (pipelineVerdicts c query)).risk_level = RiskLevel.Low →
      (build_response c query).2 = none
      ∧ (build_response c query).1.corrected_response = none)
    ∧ ((c.calc_risk (pipelineVerdicts c query)).risk_level = RiskLevel.Medium ∨
        (c.calc_risk (pipelineVerdicts c query)).risk_level = RiskLevel.High →
      (build_response c query).2 = some (query, pipelineVerdicts c query)
      ∧ (build_response c query).1.corrected_response =
          some (c.regenerate_response query (pipelineVerdicts c query))) := by
  constructor
  · intro hlow
    have hneg : ¬ ((c.calc_risk (pipelineVerdicts c query)).risk_level = RiskLevel.Medium ∨
        (c.calc_risk (pipelineVerdicts c query)).risk_level = RiskLevel.High) := by
      rw [hlow]; decide
    rw [build_response_neg c query hneg]
    exact ⟨rfl, rfl⟩
  · intro h
    rw [build_response_pos c query h]
    exact ⟨rfl, rfl⟩

/-- Witness for C2: with an all-Supported verifier the risk level is
Low and correction is skipped; with an all-Contradicted verifier it is
High and correction runs on the query and full verdict list. -/
theorem claim_C2_correction_gate_witness :
    ((build_response cAllSupported "q").2 = none
      ∧ (build_response cAllSupported "q").1.corrected_response = none)
    ∧ ((build_response cDemo "q").2 = some ("q", pipelineVerdicts cDemo "q")
      ∧ (build_response cDemo "q").1.corrected_response =
          some (cDemo.regenerate_response "q" (pipelineVerdicts cDemo "q"))) := by
  refine ⟨(claim_C2_correction_gate cAllSupported "q").1 ?_,
          (claim_C2_correction_gate cDemo "q").2 (Or.inr ?_)⟩
  · norm_num [cAllSupported, cDemo, pipelineVerdicts, calculate_risk,
      verdictWeight, levelOfScore]
  · norm_num [cDemo, pipelineVerdicts, calculate_risk, verdictWeight,
      levelOfScore]

/-- C7: when the logging sink does not fail, the `/ask` handler always
returns the structured payload carrying the query, draft, claims,
verdicts and risk assessment, with a corrected answer present exactly
when the risk level is Medium or High; verdicts carrying Unverifiable
outcomes are just data in the payload, never an error. -/
theorem claim_C7_response_shape (c : Collaborators) (query : String)
    (hlog : ∀ r, c.log_request r = Except.ok ()) :
    ask_question c query = Except.ok (build_response c query)
    ∧ (build_response c query).1.user_query = query
    ∧ (build_response c query).1.draft_response = c.generate_response query
    ∧ (build_response c query).1.extracted_claims =
        c.extract_claims (c.generate_response query)
    ∧ (build_response c query).1.verification_results = pipelineVerdicts c query
    ∧ (build_response c query).1.risk_analysis =
        c.calc_risk (pipelineVerdicts c query)
    ∧ ((build_response c query).1.corrected_response.isSome ↔
        ((c.calc_risk (pipelineVerdicts c query)).risk_level = RiskLevel.Medium ∨
         (c.calc_risk (pipelineVerdicts c query)).risk_level = RiskLevel.High)) := by
  refine ⟨by simp [ask_question, hlog], ?_⟩
  by_cases hc : (c.calc_risk (pipelineVerdicts c query)).risk_level = RiskLevel.Medium ∨
      (c.calc_risk (pipelineVerdicts c query)).risk_level = RiskLevel.High
  · rw [build_response_pos c query hc]
    exact ⟨rfl, rfl, rfl, rfl, rfl, by simpa using hc⟩
  · rw [build_response_neg c query hc]
    exact ⟨rfl, rfl, rfl, rfl, rfl, by simp [hc]⟩

/-- Witness for C7 at concrete collaborators whose logging sink always
succeeds. -/
theorem claim_C7_response_shape_witness :
    ask_question cDemo "demo7" = Except.ok (build_response cDemo "demo7")
    ∧ ((build_response cDemo "demo7").1.corrected_response.isSome ↔
        ((cDemo.calc_risk (pipelineVerdicts cDemo "demo7")).risk_level = RiskLevel.Medium ∨
         (cDemo.calc_risk (pipelineVerdicts cDemo "demo7")).risk_level = RiskLevel.High)) := by
  obtain ⟨h1, -, -, -, -, -, h7⟩ := claim_C7_response_shape cDemo "demo7" fun r => rfl
  exact ⟨h1, h7⟩

/-- Counterexample to C8 as stated: with a logging sink that fails, the
handler does not return the assembled payload; the logging error
propagates and fails the request. -/
theorem claim_C8_log_failure_cex :
    ask_question cLogFail "q" = Except.error "monitoring sink unavailable" := rfl

/-- C8 amended: the handler calls `log_request` synchronously with no
exception guard, so the request succeeds with the unchanged payload
exactly when logging succeeds, and a logging failure propagates to the
caller as a failed request. -/
theorem claim_C8_log_failure_amended (c : Collaborators) (query : String) :
    (∀ u, c.log_request (build_response c query).1 = Except.ok u →
      ask_question c query = Except.ok (build_response c query))
    ∧ (∀ e, c.log_request (build_response c query).1 = Except.error e →
      ask_question c query = Except.error e) := by
  constructor
  · rintro u h
    simp [ask_question, h]
  · rintro e h
    simp [ask_question, h]

/-- Witness for the amended C8 on collaborators whose logging sink
succeeds. -/
theorem claim_C8_log_failure_amended_witness :
    ask_question cDemo "demo8" = Except.ok (build_response cDemo "demo8") :=
  (claim_C8_log_failure_amended cDemo "demo8").1 () rfl

/-- Counterexample to C1 as stated: a 500-status response and a
successful 200 response whose only page has no extract produce the very
same return value, `Except.ok none`, so the failure outcome is not
distinguishable from the absent-content outcome. -/
theorem claim_C1_tagged_outcomes_cex :
    search_wikipedia "Paris" (httpConst 500 none) = Except.ok none
    ∧ search_wikipedia "Paris" (httpConst 200 (some bodyNoExtract)) = Except.ok none :=
  ⟨rfl, rfl⟩

/-- C1 amended: `search_wikipedia` has only two caller-visible
outcomes, `some text` when a summary is found and `none` otherwise; a
non-200 status yields the same `none` as a successful response with no
matching entry or no extract (the status is only printed to stdout),
so failure is not distinguishable from absent content in the returned
value. -/
theorem claim_C1_tagged_outcomes_amended (title : String) (status : Nat)
    (body : Option WikiBody) (h : status ≠ 200) :
    search_wikipedia title (httpConst status body) = Except.ok none
    ∧ (∀ data : WikiBody, wikiPages data = [] →
        search_wikipedia title (httpConst 200 (some data)) = Except.ok none)
    ∧ (∀ pid : String, ∀ page : WikiPage, ∀ rest : List (String × WikiPage),
        ∀ t : String, page.extract = some t →
        search_wikipedia title
          (httpConst 200 (some { query := some { pages := some ((pid, page) :: rest) } })) =
          Except.ok (some t)) := by
  refine ⟨?_, ?_, ?_⟩
  · simp [search_wikipedia, httpConst, h]
  · intro data hdata
    simp [search_wikipedia, httpConst, hdata]
  · intro pid page rest t ht
    simp [search_wikipedia, httpConst, wikiPages, ht]

/-- Witness for the amended C1 at a 404 response, an empty-pages body
and a body carrying a summary. -/
theorem claim_C1_tagged_outcomes_amended_witness :
    search_wikipedia "Paris" (httpConst 404 none) = Except.ok none
    ∧ search_wikipedia "Paris"
        (httpConst 200 (some { query := some { pages := some [] } })) = Except.ok none
    ∧ search_wikipedia "Paris" (httpConst 200 (some bodyParis)) =
        Except.ok (some "Paris is the capital of France.") := by
  obtain ⟨h1, h2, h3⟩ := claim_C1_tagged_outcomes_amended "Paris" 404 none (by decide)
  exact ⟨h1, h2 { query := some { pages := some [] } } rfl,
    h3 "22989" { extract := some "Paris is the capital of France." } []
      "Paris is the capital of France." rfl⟩

/-- Counterexample to C4 as stated: an unreachable service makes the
`requests.get` call raise, and a 200 response with a non-JSON body
makes `response.json()` raise; both exceptions cross the function
boundary uncontrolled instead of becoming a tagged outcome. -/
theorem claim_C4_no_uncontrolled_exception_cex :
    search_wikipedia "Paris" httpDown =
      Except.error "requests.exceptions.ConnectionError"
    ∧ search_wikipedia "Paris" (httpConst 200 none) =
      Except.error "json.decoder.JSONDecodeError" :=
  ⟨rfl, rfl⟩

/-- C4 amended: `search_wikipedia` returns a value without raising
whenever the service responds and a 200 response carries a JSON body;
but an unreachable service propagates the exception of the underlying
library to the caller (and so does a non-JSON 200 body). -/
theorem claim_C4_no_uncontrolled_exception_amended (title : String)
    (status : Nat) (body : Option WikiBody) (h : status = 200 → body ≠ none) :
    (∃ v, search_wikipedia title (httpConst status body) = Except.ok v)
    ∧ (∀ msg, search_wikipedia title (fun _ => HttpResult.raised msg) =
        Except.error msg) := by
  constructor
  · by_cases h200 : status = 200
    · subst h200
      match body, h rfl with
      | some data, _ =>
        match hp : wikiPages data with
        | [] => exact ⟨none, by simp [search_wikipedia, httpConst, hp]⟩
        | (pid, page) :: rest =>
          exact ⟨page.extract, by simp [search_wikipedia, httpConst, hp]⟩
    · exact ⟨none, by simp [search_wikipedia, httpConst, h200]⟩
  · intro msg
    rfl

/-- Witness for the amended C4 at a 503 response. -/
theorem claim_C4_no_uncontrolled_exception_amended_witness :
    (∃ v, search_wikipedia "Paris" (httpConst 503 none) = Except.ok v)
    ∧ (∀ msg, search_wikipedia "Paris" (fun _ => HttpResult.raised msg) =
        Except.error msg) :=
  claim_C4_no_uncontrolled_exception_amended "Paris" 503 none (by simp)

/-- Counterexample to C5 as stated: the request issued by
`search_wikipedia` carries no timeout at all — `requests.get` is called
without a timeout argument, and the library default is to wait
forever — so no bounded timeout resolves the call to a failure
outcome. -/
theorem claim_C5_bounded_timeout_cex :
    (wikiRequest "Alan Turing").timeout = none :=
  rfl

/-- C5 amended: every request issued by `search_wikipedia` is built
with no timeout argument (the `requests` default, which blocks
indefinitely), so no bounded timeout is configured on the network
call. -/
theorem claim_C5_bounded_timeout_amended (title : String) :
    (wikiRequest title).timeout = none :=
  rfl

/-- C6: `search_wikipedia` strips surrounding whitespace from the title
before querying (the `titles` parameter is the trimmed input), and when
the response holds one or more candidate pages the result is the
summary text of the first page in response order, whatever the
remaining pages are. -/
theorem claim_C6_trim_and_first_entry (title : String) (pid : String)
    (page : WikiPage) (rest : List (String × WikiPage)) (t : String)
    (ht : page.extract = some t) :
    (wikiRequest title).params.titles = pyStrip title
    ∧ search_wikipedia title
        (httpConst 200 (some { query := some { pages := some ((pid, page) :: rest) } })) =
        Except.ok (some t) := by
  refine ⟨rfl, ?_⟩
  simp [search_wikipedia, httpConst, wikiPages, ht]

/-- A body holding two candidate pages with different summaries. -/
def bodyTwoPages : WikiBody :=
  { query := some
      { pages := some
          [("22989", { extract := some "Paris is the capital of France." }),
           ("90", { extract := some "Something else entirely." })] } }

/-- Witness for C6 at a padded title and a two-page response whose
pages carry different summaries: the first one is returned. -/
theorem claim_C6_trim_and_first_entry_witness :
    (wikiRequest "  Paris  ").params.titles = "Paris"
    ∧ search_wikipedia "  Paris  " (httpConst 200 (some bodyTwoPages)) =
        Except.ok (some "Paris is the capital of France.") := by
  have h := claim_C6_trim_and_first_entry "  Paris  " "22989"
    { extract := some "Paris is the capital of France." }
    [("90", { extract := some "Something else entirely." })]
    "Paris is the capital of France." rfl
  exact ⟨h.1.trans (by decide), h.2⟩

/-- C9: a 200 response whose JSON body lacks the `query` key, lacks the
`pages` key, or has an empty `pages` mapping makes `search_wikipedia`
return the no-content value `none` without raising, through the
defaulted dictionary lookups. -/
theorem claim_C9_defaulted_lookups (title : String) :
    search_wikipedia title (httpConst 200 (some { query := none })) = Except.ok none
    ∧ search_wikipedia title (httpConst 200 (some { query := some { pages := none } })) =
        Except.ok none
    ∧ search_wikipedia title (httpConst 200 (some { query := some { pages := some [] } })) =
        Except.ok none :=
  ⟨rfl, rfl, rfl⟩

/-- C10: on a 200 response the result of `search_wikipedia` is exactly
the `extract` field of the first page of the `pages` mapping — `some`
text or `none` when that page has no extract — for every choice of the
remaining pages, which are never examined. -/
theorem claim_C10_first_entry_only (title : String) (pid : String)
    (page : WikiPage) (rest : List (String × WikiPage)) :
    search_wikipedia title
      (httpConst 200 (some { query := some { pages := some ((pid, page) :: rest) } })) =
      Except.ok page.extract :=
  rfl

end HallucinationGuard
